import Mathlib

/-!
# Verification of the JeefHS orchestration-and-sync core

Shallow embedding of the JeefHS repository's core components
(`mode_manager.py`, `device_control_module.py`, `database_interface.py`,
`jeefHS.py`) together with theorems settling the frozen claims about the
natural-language specification.

Conventions of the embedding:
* Python exceptions are modelled by the `PyErr` error type and functions that
  may raise return `Except PyErr _` or thread the error explicitly.
* Python dictionaries keyed by strings are modelled as functions
  `String → Option _` (a missing key is `none`), updated pointwise.
* Durations (Python floats used only for `time.sleep` and `max`) are modelled
  as rationals; the only operations performed on them in the source are
  comparison and `max`, on which float and rational semantics agree for the
  literals involved.
* Threads are modelled by making the interleaving-relevant atomic actions of
  each method explicit as an action trace (`RegAction`), and background loops
  by explicit step functions over schedules of externally determined outcomes.
-/

/-- A Python exception value.  `valueError` models `ValueError`,
`pgError` models the `psycopg2.Error` family, `generic` any other
`Exception` subclass. -/
inductive PyErr where
  | valueError (msg : String)
  | pgError (msg : String)
  | generic (msg : String)
deriving DecidableEq, Repr

instance {ε α : Type} [DecidableEq ε] [DecidableEq α] : DecidableEq (Except ε α) := fun
  | Except.ok a, Except.ok b =>
      if h : a = b then Decidable.isTrue (by rw [h]) else Decidable.isFalse (by simp [h])
  | Except.ok _, Except.error _ => Decidable.isFalse (by simp)
  | Except.error _, Except.ok _ => Decidable.isFalse (by simp)
  | Except.error e, Except.error f =>
      if h : e = f then Decidable.isTrue (by rw [h]) else Decidable.isFalse (by simp [h])

/-! ## Python string primitives

Lean's built-in `String.trim`/`String.toUpper` do not reduce inside the
kernel, so the embedding spells out the corresponding Python operations over
the underlying character list.  `Char.toUpper`/`Char.toLower` act on ASCII
letters only, which agrees with Python's `str.upper`/`str.lower` on the ASCII
strings the program manipulates. -/

/-- The whitespace characters removed by Python's `str.strip()` (ASCII
subset). -/
def pyIsSpace (c : Char) : Bool :=
  c = ' ' || c = '\t' || c = '\n' || c = '\x0d' || c = '\x0b' || c = '\x0c'

/-- Python `str.strip()`: remove leading and trailing whitespace. -/
def pyStrip (s : String) : String :=
  String.mk (((s.data.dropWhile pyIsSpace).reverse.dropWhile pyIsSpace).reverse)

/-- Python `str.upper()` (ASCII). -/
def pyUpper (s : String) : String := String.mk (s.data.map Char.toUpper)

/-- Python `str.lower()` (ASCII). -/
def pyLower (s : String) : String := String.mk (s.data.map Char.toLower)

/-! ## ModeManager (`src/mode_manager.py`)

The manager holds the current mode string and a list of registered
callbacks.  Callbacks are identified by a `Nat` identity (Python compares
callbacks by object identity in `register_callback`); what a callback does is
irrelevant to the claims (its exceptions are caught by `set_mode`), so the
embedding records the invocations performed rather than running them. -/

/-- `ModeManager.VALID_MODES`. -/
def VALID_MODES : List String := ["HOME", "AWAY", "NIGHT"]

/-- The `ModeManager` state: `_mode` and `_callbacks` (callback identities in
registration order). -/
structure ModeManager where
  mode : String
  callbacks : List Nat
deriving DecidableEq, Repr

/-- Observable events produced by one `set_mode` call, in program order:
the commit of the new value into `_mode`, followed by the synchronous
invocation of each registered callback with the new value. -/
inductive ModeEvent where
  | commit (newMode : String)
  | invoke (callback : Nat) (arg : String)
deriving DecidableEq, Repr

/-- `ModeManager._normalise`: `(mode or "HOME").strip().upper()`, raising
`ValueError` when the result is not in `VALID_MODES`.  Python's
`mode or "HOME"` falls back to `"HOME"` exactly when `mode` is falsy, i.e.
`None` or the empty string; the embedding takes the string argument (the
`None` case behaves as `""`). -/
def ModeManager.normalise (mode : String) : Except PyErr String :=
  let candidate := pyUpper (pyStrip (if mode = "" then "HOME" else mode))
  if candidate ∈ VALID_MODES then Except.ok candidate
  else Except.error (PyErr.valueError ("Unsupported mode '" ++ mode ++ "'"))

/-- `ModeManager.get_mode`. -/
def ModeManager.get_mode (m : ModeManager) : String := m.mode

/-- `ModeManager.set_mode`.  Returns the Python return value (or the
propagated exception from `_normalise`), the state after the call, and the
trace of observable events.  Callback exceptions are caught inside the loop
and affect nothing, so each registered callback contributes exactly one
`invoke` event after the `commit` event. -/
def ModeManager.set_mode (m : ModeManager) (new_mode : String) :
    Except PyErr Bool × ModeManager × List ModeEvent :=
  match ModeManager.normalise new_mode with
  | Except.error e => (Except.error e, m, [])
  | Except.ok candidate =>
    if candidate = m.mode then (Except.ok false, m, [])
    else
      (Except.ok true, { m with mode := candidate },
       ModeEvent.commit candidate :: m.callbacks.map (fun c => ModeEvent.invoke c candidate))

/-- `ModeManager.register_callback`: append if not already present. -/
def ModeManager.register_callback (m : ModeManager) (c : Nat) : ModeManager :=
  if c ∈ m.callbacks then m else { m with callbacks := m.callbacks ++ [c] }

/-- The spec's notion of a casing/whitespace variant of one of the three mode
words: trimming and case-folding the string yields `"HOME"`, `"AWAY"` or
`"NIGHT"`. -/
def isModeVariant (s : String) : Bool := pyUpper (pyStrip s) ∈ VALID_MODES

/-! ## Claims C3 and C7: mode validation and change notification -/

/-- C3 (counterexample): the empty string is not a casing/whitespace variant
of `"home"`, `"away"` or `"night"`, yet `set_mode` does not fail on it: the
`mode or "HOME"` fallback in `_normalise` silently turns it into `"HOME"`, so
from mode `AWAY` the call succeeds and changes the mode. -/
theorem C3_counterexample_empty_string :
    isModeVariant "" = false ∧
    ModeManager.set_mode ⟨"AWAY", []⟩ "" =
      (Except.ok true, ⟨"HOME", []⟩, [ModeEvent.commit "HOME"]) := by
  decide

/-- C3 (amended): every input whose trim-and-case-fold normalisation is one
of HOME/AWAY/NIGHT succeeds; the empty string (and `None`) also succeeds,
falling back to `"HOME"`; every other input fails with a `ValueError`
(the spec's `InvalidModeError`), leaving the stored mode unchanged and
invoking no listener. -/
theorem C3_mode_validation (m : ModeManager) (s : String) :
    (isModeVariant s = true → ∃ b, (ModeManager.set_mode m s).1 = Except.ok b) ∧
    (s = "" → ∃ b, (ModeManager.set_mode m s).1 = Except.ok b) ∧
    (isModeVariant s = false → s ≠ "" →
      ModeManager.set_mode m s =
        (Except.error (PyErr.valueError ("Unsupported mode '" ++ s ++ "'")), m, [])) := by
  refine ⟨?_, ?_, ?_⟩
  · intro hv
    by_cases hs : s = ""
    · rw [hs] at hv; exact absurd hv (by decide)
    · have hmem : pyUpper (pyStrip s) ∈ VALID_MODES := by
        simpa [isModeVariant] using hv
      unfold ModeManager.set_mode ModeManager.normalise
      simp only [if_neg hs, if_pos hmem]
      by_cases he : pyUpper (pyStrip s) = m.mode
      · exact ⟨false, by simp [he]⟩
      · exact ⟨true, by simp [he]⟩
  · intro hs
    subst hs
    have hn : ModeManager.normalise "" = Except.ok "HOME" := by decide
    unfold ModeManager.set_mode
    rw [hn]
    by_cases he : "HOME" = m.mode
    · exact ⟨false, by simp [he]⟩
    · exact ⟨true, by simp [he]⟩
  · intro hv hs
    have hmem : pyUpper (pyStrip s) ∉ VALID_MODES := by
      simpa [isModeVariant] using hv
    unfold ModeManager.set_mode ModeManager.normalise
    simp [if_neg hs, if_neg hmem]

/-- C3 (witness): a concrete rejected input. -/
theorem C3_mode_validation_witness :
    ModeManager.set_mode ⟨"HOME", []⟩ "xyz" =
      (Except.error (PyErr.valueError ("Unsupported mode '" ++ "xyz" ++ "'")),
       ⟨"HOME", []⟩, []) :=
  (C3_mode_validation ⟨"HOME", []⟩ "xyz").2.2 (by decide) (by decide)

/-- C7: setting the current (normalised) mode returns `false` and invokes no
listener; from initial HOME with duplicate-free registered listeners,
`set_mode "away"` returns `true`, commits the value before any invocation,
invokes each registered listener exactly once with `"AWAY"`, and a
subsequent `get_mode` returns `"AWAY"`. -/
theorem C7_set_away_scenario (m : ModeManager) (s : String) (cbs : List Nat)
    (h : ModeManager.normalise s = Except.ok m.mode) (hnd : cbs.Nodup) :
    ModeManager.set_mode m s = (Except.ok false, m, []) ∧
    ModeManager.set_mode ⟨"HOME", cbs⟩ "away" =
      (Except.ok true, ⟨"AWAY", cbs⟩,
        ModeEvent.commit "AWAY" :: cbs.map (fun c => ModeEvent.invoke c "AWAY")) ∧
    (∀ c ∈ cbs,
      ((ModeManager.set_mode ⟨"HOME", cbs⟩ "away").2.2.count
        (ModeEvent.invoke c "AWAY")) = 1) ∧
    (ModeManager.set_mode ⟨"HOME", cbs⟩ "away").2.1.get_mode = "AWAY" := by
  have hn : ModeManager.normalise "away" = Except.ok "AWAY" := by decide
  have haway : ModeManager.set_mode ⟨"HOME", cbs⟩ "away" =
      (Except.ok true, ⟨"AWAY", cbs⟩,
        ModeEvent.commit "AWAY" :: cbs.map (fun c => ModeEvent.invoke c "AWAY")) := by
    unfold ModeManager.set_mode
    rw [hn]
    simp
  refine ⟨?_, haway, ?_, ?_⟩
  · unfold ModeManager.set_mode
    rw [h]
    simp
  · intro c hc
    rw [haway]
    have hinj : Function.Injective (fun c => ModeEvent.invoke c "AWAY") := by
      intro a b hab
      simpa using hab
    simp only [List.count_cons, List.count_map_of_injective _ _ hinj]
    have : ModeEvent.commit "AWAY" ≠ ModeEvent.invoke c "AWAY" := by simp
    simp [List.count_eq_one_of_mem hnd hc, this]
  · rw [haway]
    rfl

/-- C7 (witness): concrete instantiation with one registered listener. -/
theorem C7_set_away_scenario_witness :
    ModeManager.set_mode ⟨"AWAY", []⟩ "away" = (Except.ok false, ⟨"AWAY", []⟩, []) :=
  (C7_set_away_scenario ⟨"AWAY", []⟩ "away" [7] (by decide) (by decide)).1

/-! ## device_control_module (`src/device_control_module.py`)

The registry caches the wrapper value of each output (`_outputs`, modelled by
the wrapper's stored boolean) and the `"on"`/`"off"` state strings
(`_states`).  The interleaving-relevant atomic actions of each method are
recorded in a trace: lock acquisition/release, driver writes
(`_OutputWrapper.set`), cache writes, and sleeps.  `set_device_state` and
`pulse_buzzer` take no lock in the source; the only lock of the class,
`_setup_lock`, is held during `_initialise_outputs` only. -/

/-- `device_control_module.REQUIRED_DEVICES`. -/
def REQUIRED_DEVICES : List String := ["red_led", "green_led", "blue_led", "fan", "buzzer"]

/-- `device_control_module.CONTROLLABLE_DEVICES`. -/
def CONTROLLABLE_DEVICES : List String := ["red_led", "green_led", "blue_led", "fan"]

/-- Python's two-argument `max`: returns the first argument when the two are
equal, matching `max(duration, 0.1)` in the source. -/
def pyMax (a b : ℚ) : ℚ := if b ≤ a then a else b

/-- Atomic actions a registry method performs, in program order. -/
inductive RegAction where
  | acquire
  | release
  | driverWrite (device : String) (value : Bool)
  | cacheWrite (device : String) (state : String)
  | sleep (seconds : ℚ)
deriving DecidableEq, Repr

/-- The `device_control_module` instance state: `_outputs` (the wrapper value
of each initialised output; `none` when the key is absent), `_states`, and
`_pulse_duration`. -/
structure Registry where
  outputs : String → Option Bool
  states : String → Option String
  pulseDuration : ℚ

/-- The registry as produced by `_initialise_outputs` with the default
`buzzer_pulse_duration_s` of 0.5: every required device initialised to
driver value `False` and cached state `"off"`. -/
def initRegistry : Registry :=
  { outputs := fun n => if n ∈ REQUIRED_DEVICES then some false else none,
    states := fun n => if n ∈ REQUIRED_DEVICES then some "off" else none,
    pulseDuration := 1/2 }

/-- The action trace of `_initialise_outputs`: the body runs under
`with self._setup_lock`, writing every required output low and caching
`"off"`. -/
def initialise_outputs_trace : List RegAction :=
  (RegAction.acquire ::
    (REQUIRED_DEVICES.map
      (fun n => [RegAction.driverWrite n false, RegAction.cacheWrite n "off"])).flatten)
  ++ [RegAction.release]

/-- `device_control_module.set_device_state`.  Returns the Python return
value, the registry after the call, and the action trace.  The source takes
no lock here. -/
def set_device_state (r : Registry) (device_name : String) (onState : Bool) :
    Bool × Registry × List RegAction :=
  let device := pyLower device_name
  if device ∉ CONTROLLABLE_DEVICES then (false, r, [])
  else
    let target_state := if onState then "on" else "off"
    if r.states device = some target_state then (false, r, [])
    else
      match r.outputs device with
      | none => (false, r, [])
      | some _ =>
        (true,
         { r with
            outputs := fun n => if n = device then some onState else r.outputs n,
            states := fun n => if n = device then some target_state else r.states n },
         [RegAction.driverWrite device onState, RegAction.cacheWrite device target_state])

/-- `device_control_module.pulse_buzzer`.  `duration = none` models calling
with no argument (falls back to `_pulse_duration`).  `sleepExc` is the
exception, if any, interrupting the `time.sleep` hold; the source has no
`try/finally`, so an interrupting exception propagates and the two
subsequent "off" writes do not execute.  The source takes no lock here. -/
def pulse_buzzer (r : Registry) (duration : Option ℚ) (sleepExc : Option PyErr) :
    Except PyErr Unit × Registry × List RegAction :=
  match r.outputs "buzzer" with
  | none => (Except.ok (), r, [])
  | some _ =>
    let pulse_for := duration.getD r.pulseDuration
    let r1 : Registry :=
      { r with
          states := fun n => if n = "buzzer" then some "on" else r.states n,
          outputs := fun n => if n = "buzzer" then some true else r.outputs n }
    match sleepExc with
    | some e =>
      (Except.error e, r1,
       [RegAction.cacheWrite "buzzer" "on", RegAction.driverWrite "buzzer" true,
        RegAction.sleep (pyMax pulse_for (1/10))])
    | none =>
      (Except.ok (),
       { r1 with
          outputs := fun n => if n = "buzzer" then some false else r1.outputs n,
          states := fun n => if n = "buzzer" then some "off" else r1.states n },
       [RegAction.cacheWrite "buzzer" "on", RegAction.driverWrite "buzzer" true,
        RegAction.sleep (pyMax pulse_for (1/10)),
        RegAction.driverWrite "buzzer" false, RegAction.cacheWrite "buzzer" "off"])

/-! ## Claims C6, C4 and C9: actuator transitions, pulse, locking -/

/-- C6: `set_device_state` is idempotent and rejects uncontrollable names:
when the lower-cased name is outside `CONTROLLABLE_DEVICES` (in particular
the momentary output `"buzzer"`), the call returns `false` with no driver
write and an unchanged registry; and when the cached state already equals
the requested state, the call returns `false` with no driver write and an
unchanged registry. -/
theorem C6_setState_idempotent (r : Registry) (name : String) (onState : Bool) :
    (pyLower name ∉ CONTROLLABLE_DEVICES →
      set_device_state r name onState = (false, r, [])) ∧
    (r.states (pyLower name) = some (if onState then "on" else "off") →
      set_device_state r name onState = (false, r, [])) := by
  constructor
  · intro h
    unfold set_device_state
    simp [h]
  · intro h
    unfold set_device_state
    by_cases hc : pyLower name ∈ CONTROLLABLE_DEVICES
    · simp [hc, h]
    · simp [hc]

/-- C6 (witness): the momentary output is rejected and a same-state request
is a no-op, on the freshly initialised registry. -/
theorem C6_setState_idempotent_witness :
    set_device_state initRegistry "buzzer" true = (false, initRegistry, []) ∧
    set_device_state initRegistry "red_led" false = (false, initRegistry, []) :=
  ⟨(C6_setState_idempotent initRegistry "buzzer" true).1 (by decide),
   (C6_setState_idempotent initRegistry "red_led" false).2 (by decide)⟩

/-- C4 (counterexample): `pulse_buzzer` has no `try/finally`; when the
`time.sleep` hold is interrupted by an unexpected exception, the exception
propagates and the final off write is skipped, leaving the buzzer observed
on — contradicting the claim that the pulse always ends with the momentary
output off. -/
theorem C4_counterexample_interrupted_pulse :
    (pulse_buzzer initRegistry (some 2) (some (PyErr.generic "interrupted"))).1 =
      Except.error (PyErr.generic "interrupted") ∧
    (pulse_buzzer initRegistry (some 2) (some (PyErr.generic "interrupted"))).2.1.outputs
      "buzzer" = some true ∧
    (pulse_buzzer initRegistry (some 2) (some (PyErr.generic "interrupted"))).2.1.states
      "buzzer" = some "on" := by
  refine ⟨rfl, rfl, rfl⟩

/-- C4 (amended): on normal completion `pulse_buzzer` turns the momentary
output on, sleeps for `max(duration, 0.1)` seconds (falling back to the
configured default when no duration is given, and clamping zero or negative
durations to 0.1), and ends with the output observed off; but the final off
write is NOT on a cleanup path: if the hold is interrupted by an exception,
the exception propagates and the output remains on. -/
theorem C4_pulse_ends_off_only_without_interruption (r : Registry) (d : Option ℚ) (e : PyErr)
    (hb : (r.outputs "buzzer").isSome) :
    ((pulse_buzzer r d none).2.1.outputs "buzzer" = some false ∧
     (pulse_buzzer r d none).2.1.states "buzzer" = some "off" ∧
     (pulse_buzzer r d none).2.2 =
       [RegAction.cacheWrite "buzzer" "on", RegAction.driverWrite "buzzer" true,
        RegAction.sleep (pyMax (d.getD r.pulseDuration) (1/10)),
        RegAction.driverWrite "buzzer" false, RegAction.cacheWrite "buzzer" "off"]) ∧
    ((pulse_buzzer r d (some e)).1 = Except.error e ∧
     (pulse_buzzer r d (some e)).2.1.outputs "buzzer" = some true ∧
     (pulse_buzzer r d (some e)).2.1.states "buzzer" = some "on") := by
  obtain ⟨v, hv⟩ := Option.isSome_iff_exists.mp hb
  unfold pulse_buzzer
  rw [hv]
  simp

/-- C4 (witness): a zero-duration pulse on the initial registry completes
with the buzzer off. -/
theorem C4_pulse_witness :
    (pulse_buzzer initRegistry (some 0) none).2.1.outputs "buzzer" = some false ∧
    (pulse_buzzer initRegistry (some 0) none).2.1.states "buzzer" = some "off" :=
  ⟨((C4_pulse_ends_off_only_without_interruption initRegistry (some 0)
      (PyErr.generic "x") (by decide)).1).1,
   ((C4_pulse_ends_off_only_without_interruption initRegistry (some 0)
      (PyErr.generic "x") (by decide)).1).2.1⟩

/-- C9 (counterexample): a genuine state-changing `set_device_state` call
whose action trace contains no lock acquisition or release at all — the
claim that every mutating registry call is serialized by a single
registry-scoped lock is false of the code. -/
theorem C9_counterexample_setState_unlocked :
    (set_device_state initRegistry "red_led" true).1 = true ∧
    RegAction.acquire ∉ (set_device_state initRegistry "red_led" true).2.2 ∧
    RegAction.release ∉ (set_device_state initRegistry "red_led" true).2.2 := by
  refine ⟨by decide, by decide, by decide⟩

/-- C9 (amended): neither `set_device_state` nor `pulse_buzzer` acquires or
releases any lock on any input; the only lock of the class, `_setup_lock`,
is taken exclusively by `_initialise_outputs`.  Mutating registry calls are
therefore not serialized by a lock. -/
theorem C9_no_lock_in_mutating_calls (r : Registry) (name : String) (onState : Bool)
    (d : Option ℚ) (e : Option PyErr) :
    (RegAction.acquire ∉ (set_device_state r name onState).2.2 ∧
     RegAction.release ∉ (set_device_state r name onState).2.2) ∧
    (RegAction.acquire ∉ (pulse_buzzer r d e).2.2 ∧
     RegAction.release ∉ (pulse_buzzer r d e).2.2) ∧
    RegAction.acquire ∈ initialise_outputs_trace := by
  refine ⟨?_, ?_, by decide⟩
  · unfold set_device_state
    cases h : r.outputs (pyLower name) <;> simp only [h] <;> split_ifs <;> simp
  · unfold pulse_buzzer
    cases h : r.outputs "buzzer" <;> cases e <;> simp [h]

/-- C9 (witness): concrete instantiation of the amended statement. -/
theorem C9_no_lock_witness :
    RegAction.acquire ∉ (set_device_state initRegistry "red_led" true).2.2 ∧
    RegAction.acquire ∈ initialise_outputs_trace :=
  ⟨(C9_no_lock_in_mutating_calls initRegistry "red_led" true none none).1.1,
   (C9_no_lock_in_mutating_calls initRegistry "red_led" true none none).2.2⟩

/-! ## Party mode (`src/jeefHS.py`, `_start_party_mode` / `_party_worker`)

The worker loops over a fixed cyclic frame sequence until the stop event is
observed, applying each frame through `set_device_state`; any exception in
the loop is caught, and a `finally` block unconditionally sets the three
indicator LEDs off (each write itself wrapped in `try/except pass`) before
the thread terminates.  The embedding models the loop's executed iterations
by their count `k` (an exit provoked mid-loop simply means the `finally`
block runs from whatever intermediate registry was reached, which the
coherence-based theorem covers by quantifying over the registry). -/

/-- The three indicator LEDs the party worker animates and forces off. -/
def INDICATOR_LEDS : List String := ["red_led", "green_led", "blue_led"]

/-- `seq` inside `JeefHSApp._party_worker`. -/
def partySeq : List (List String × ℚ) :=
  [(["red_led"], 3/10), (["green_led"], 3/10), (["blue_led"], 3/10),
   (["red_led", "green_led"], 1/4), (["green_led", "blue_led"], 1/4),
   (["red_led", "blue_led"], 1/4),
   (["red_led", "green_led", "blue_led"], 1/2), ([], 1/5)]

/-- One frame of the worker loop:
`for name in ('red_led','green_led','blue_led'): set_device_state(name, name in leds)`. -/
def applyFrame (r : Registry) (leds : List String) : Registry :=
  INDICATOR_LEDS.foldl (fun acc name => (set_device_state acc name (name ∈ leds)).2.1) r

/-- `k` iterations of the worker loop body over the cyclic frame sequence. -/
def runPartyFrames (r : Registry) (k : Nat) : Registry :=
  (List.range k).foldl
    (fun acc i => applyFrame acc (partySeq.getD (i % partySeq.length) ([], 0)).1) r

/-- The worker's `finally` block: force each indicator LED off. -/
def party_worker_finally (r : Registry) : Registry :=
  INDICATOR_LEDS.foldl (fun acc name => (set_device_state acc name false).2.1) r

/-- `JeefHSApp._party_worker`: the loop runs `k` frames (until the stop event
is observed or an exception is caught), then the `finally` block runs. -/
def _party_worker (r : Registry) (k : Nat) : Registry :=
  party_worker_finally (runPartyFrames r k)

/-- Party-mode bookkeeping of `JeefHSApp`: whether `_party_thread` is alive,
the `_party_stop_event` flag, and the shared device controller. -/
structure PartyState where
  threadAlive : Bool
  stopEventSet : Bool
  reg : Registry

/-- Outcome of `_start_party_mode`. -/
inductive StartResult where
  | alreadyRunning
  | refused (led : String)
  | started
deriving DecidableEq, Repr

/-- `JeefHSApp._start_party_mode` (body runs under `_party_lock`): no-op when
the animation thread is already alive; refuses when some indicator LED's
reported state (`_current_actuator_states` defaults a missing entry to
`"off"`) is not `"off"`; otherwise clears the stop event and launches the
worker thread. -/
def _start_party_mode (st : PartyState) : PartyState × StartResult :=
  if st.threadAlive then (st, StartResult.alreadyRunning)
  else
    match INDICATOR_LEDS.find? (fun led => (st.reg.states led).getD "off" ≠ "off") with
    | some led => (st, StartResult.refused led)
    | none => ({ st with threadAlive := true, stopEventSet := false }, StartResult.started)

/-- A registry is coherent on the indicator LEDs when each LED's cached
state string agrees with its driver value; this holds after
`_initialise_outputs` and is preserved by every `set_device_state` call. -/
def Registry.Coherent (r : Registry) : Prop :=
  ∀ n ∈ INDICATOR_LEDS,
    (r.outputs n = some false ∧ r.states n = some "off") ∨
    (r.outputs n = some true ∧ r.states n = some "on")

/-- `set_device_state` either leaves the registry untouched or performs the
pointwise write at the lower-cased device name. -/
theorem set_device_state_registry_cases (r : Registry) (name : String) (onState : Bool) :
    (set_device_state r name onState).2.1 = r ∨
    (set_device_state r name onState).2.1 =
      { r with
          outputs := fun n => if n = pyLower name then some onState else r.outputs n,
          states := fun n =>
            if n = pyLower name then some (if onState then "on" else "off")
            else r.states n } := by
  unfold set_device_state
  cases h : r.outputs (pyLower name) <;> simp only [h] <;> split_ifs <;> simp

/-- Keys other than the lower-cased target are never touched by
`set_device_state`. -/
theorem set_device_state_other_key (r : Registry) (name : String) (onState : Bool)
    (m : String) (hm : m ≠ pyLower name) :
    (set_device_state r name onState).2.1.outputs m = r.outputs m ∧
    (set_device_state r name onState).2.1.states m = r.states m := by
  rcases set_device_state_registry_cases r name onState with h | h <;> rw [h]
  · exact ⟨rfl, rfl⟩
  · simp [hm]

/-- `set_device_state` preserves coherence of the indicator LEDs. -/
theorem set_device_state_coherent (r : Registry) (name : String) (onState : Bool)
    (hc : r.Coherent) : (set_device_state r name onState).2.1.Coherent := by
  rcases set_device_state_registry_cases r name onState with h | h <;> rw [h]
  · exact hc
  · intro n hn
    by_cases hm : n = pyLower name
    · cases onState <;> simp [hm]
    · simpa [hm] using hc n hn

/-- Setting a coherent, controllable, lower-case LED to off leaves it with
driver value low and cached state `"off"`, whether or not a write was
needed. -/
theorem set_device_state_led_off (r : Registry) (led : String)
    (hlow : pyLower led = led) (hctl : led ∈ CONTROLLABLE_DEVICES)
    (hcoh : (r.outputs led = some false ∧ r.states led = some "off") ∨
            (r.outputs led = some true ∧ r.states led = some "on")) :
    (set_device_state r led false).2.1.outputs led = some false ∧
    (set_device_state r led false).2.1.states led = some "off" := by
  unfold set_device_state
  rw [hlow]
  rcases hcoh with ⟨ho, hs⟩ | ⟨ho, hs⟩ <;> simp [hctl, hs, ho]

/-- Each animation frame preserves coherence. -/
theorem applyFrame_coherent (r : Registry) (leds : List String) (hc : r.Coherent) :
    (applyFrame r leds).Coherent :=
  set_device_state_coherent _ _ _
    (set_device_state_coherent _ _ _ (set_device_state_coherent _ _ _ hc))

/-- Any number of animation frames preserves coherence. -/
theorem runPartyFrames_coherent (r : Registry) (k : Nat) (hc : r.Coherent) :
    (runPartyFrames r k).Coherent := by
  induction k with
  | zero => simpa [runPartyFrames] using hc
  | succ n ih =>
    unfold runPartyFrames at ih ⊢
    rw [List.range_succ, List.foldl_append]
    simpa [List.foldl] using applyFrame_coherent _ _ ih

/-- The worker's `finally` block leaves every indicator LED off (driver low,
cached state `"off"`) on any coherent registry, i.e. from any point the loop
may have reached. -/
theorem party_worker_finally_leds_off (r : Registry) (hc : r.Coherent) :
    ∀ n ∈ INDICATOR_LEDS,
      (party_worker_finally r).outputs n = some false ∧
      (party_worker_finally r).states n = some "off" := by
  have hfin : party_worker_finally r =
      (set_device_state
        ((set_device_state
          ((set_device_state r "red_led" false).2.1) "green_led" false).2.1)
        "blue_led" false).2.1 := rfl
  have hc1 := set_device_state_coherent r "red_led" false hc
  have hc2 := set_device_state_coherent _ "green_led" false hc1
  have hred := set_device_state_led_off r "red_led" (by decide) (by decide)
    (hc "red_led" (by decide))
  have hgreen := set_device_state_led_off _ "green_led" (by decide) (by decide)
    (hc1 "green_led" (by decide))
  have hblue := set_device_state_led_off _ "blue_led" (by decide) (by decide)
    (hc2 "blue_led" (by decide))
  intro n hn
  rw [hfin]
  have hn3 : n = "red_led" ∨ n = "green_led" ∨ n = "blue_led" := by
    simpa [INDICATOR_LEDS] using hn
  rcases hn3 with rfl | rfl | rfl
  · have p1 := set_device_state_other_key
      (set_device_state r "red_led" false).2.1 "green_led" false "red_led" (by decide)
    have p2 := set_device_state_other_key
      (set_device_state (set_device_state r "red_led" false).2.1 "green_led" false).2.1
      "blue_led" false "red_led" (by decide)
    exact ⟨p2.1.trans (p1.1.trans hred.1), p2.2.trans (p1.2.trans hred.2)⟩
  · have p2 := set_device_state_other_key
      (set_device_state (set_device_state r "red_led" false).2.1 "green_led" false).2.1
      "blue_led" false "green_led" (by decide)
    exact ⟨p2.1.trans hgreen.1, p2.2.trans hgreen.2⟩
  · exact hblue

/-- The freshly initialised registry is coherent. -/
theorem initRegistry_coherent : initRegistry.Coherent := by
  intro n hn
  fin_cases hn <;> exact Or.inl ⟨rfl, rfl⟩

/-- C5: party-mode start is a no-op while the animation thread is alive,
refuses to launch when some indicator LED is not reported off, and the
animation task forces every indicator LED off on every exit path — both
directly for the `finally` block from any (coherent) registry the loop may
have reached, and for a completed run of any number of frames — so stopping
party mode always leaves every indicator output off. -/
theorem C5_party_mode_safety (st : PartyState) (r : Registry) (k : Nat)
    (hc : r.Coherent) :
    (st.threadAlive = true → _start_party_mode st = (st, StartResult.alreadyRunning)) ∧
    (st.threadAlive = false →
      (∃ led ∈ INDICATOR_LEDS, (st.reg.states led).getD "off" ≠ "off") →
      ∃ led, _start_party_mode st = (st, StartResult.refused led)) ∧
    (∀ n ∈ INDICATOR_LEDS,
      (party_worker_finally r).outputs n = some false ∧
      (party_worker_finally r).states n = some "off") ∧
    (∀ n ∈ INDICATOR_LEDS,
      (_party_worker r k).outputs n = some false ∧
      (_party_worker r k).states n = some "off") := by
  refine ⟨?_, ?_, party_worker_finally_leds_off r hc, ?_⟩
  · intro h
    unfold _start_party_mode
    rw [if_pos h]
  · intro hna hex
    unfold _start_party_mode
    rw [if_neg (by simp [hna])]
    obtain ⟨led, hmem, hne⟩ := hex
    have hsome : (INDICATOR_LEDS.find?
        (fun led => (st.reg.states led).getD "off" ≠ "off")).isSome :=
      List.find?_isSome.mpr ⟨led, hmem, by simpa using hne⟩
    obtain ⟨l, hl⟩ := Option.isSome_iff_exists.mp hsome
    rw [hl]
    exact ⟨l, rfl⟩
  · exact party_worker_finally_leds_off (runPartyFrames r k)
      (runPartyFrames_coherent r k hc)

/-- C5 (witness): concrete instantiation on the initial registry. -/
theorem C5_party_mode_safety_witness :
    _start_party_mode ⟨true, false, initRegistry⟩ =
      (⟨true, false, initRegistry⟩, StartResult.alreadyRunning) ∧
    (party_worker_finally initRegistry).states "red_led" = some "off" :=
  ⟨(C5_party_mode_safety ⟨true, false, initRegistry⟩ initRegistry 0
      initRegistry_coherent).1 rfl,
   ((C5_party_mode_safety ⟨true, false, initRegistry⟩ initRegistry 0
      initRegistry_coherent).2.2.1 "red_led" (by decide)).2⟩

/-! ## DatabaseInterface (`src/database_interface.py`)

The local SQLite tables are modelled as row lists in rowid (auto-increment
`id`) order, which is the order SQLite's full table scan returns for
`SELECT ... WHERE synced=0 LIMIT 50` on these tables (no index, no ORDER
BY).  A push attempt's outcome is a parameter: `none` means every remote
INSERT and the commit succeed; `some k` means a `psycopg2.Error`
(connection, auth, constraint) is raised after `k` successful inserts — the
remote `with psycopg2.connect(...)` block then rolls the transaction back,
the handler catches the error, and the local UPDATE is never reached.  The
local `UPDATE ... WHERE id IN (...)` plus `commit()` is the single local
transaction marking the batch. -/

/-- One row of the local `measurements` table. -/
structure MeasurementRow where
  id : Nat
  timestamp : String
  temperature : Option ℚ
  humidity : Option ℚ
  synced : Bool
deriving DecidableEq, Repr

/-- One row of the local `security_events` table. -/
structure SecurityRow where
  id : Nat
  timestamp : String
  event_type : Option String
  image_path : Option String
  mode : Option String
  synced : Bool
deriving DecidableEq, Repr

/-- One row of the remote `measurements` table. -/
structure RemoteMeasurementRow where
  timestamp : String
  temperature : Option ℚ
  humidity : Option ℚ
  device_id : String
deriving DecidableEq, Repr

/-- One row of the remote `security_events` table. -/
structure RemoteSecurityRow where
  timestamp : String
  event_type : Option String
  image_path : Option String
  mode : Option String
  device_id : String
deriving DecidableEq, Repr

/-- `DatabaseInterface.device_id`. -/
def device_id : String := "pi_01"

/-- `SELECT id, timestamp, temperature, humidity FROM measurements WHERE
synced=0 LIMIT 50`. -/
def fetchUnsyncedMeasurements (db : List MeasurementRow) : List MeasurementRow :=
  (db.filter (fun row => !row.synced)).take 50

/-- `SELECT id, timestamp, event_type, image_path, mode FROM security_events
WHERE synced=0 LIMIT 50`. -/
def fetchUnsyncedSecurity (db : List SecurityRow) : List SecurityRow :=
  (db.filter (fun row => !row.synced)).take 50

/-- `DatabaseInterface._sync_measurements`: fetch the batch; if non-empty,
push every row remotely and, only when the whole push committed, mark
exactly those ids synced in one local transaction.  `failAfter = some k`
models a `psycopg2.Error` during the push (caught and logged). -/
def _sync_measurements (localDb : List MeasurementRow)
    (remote : List RemoteMeasurementRow) (failAfter : Option Nat) :
    List MeasurementRow × List RemoteMeasurementRow :=
  let rows := fetchUnsyncedMeasurements localDb
  if rows.isEmpty then (localDb, remote)
  else
    match failAfter with
    | some _ => (localDb, remote)
    | none =>
      let ids_to_mark := rows.map (fun row => row.id)
      (localDb.map (fun row =>
         if row.id ∈ ids_to_mark then { row with synced := true } else row),
       remote ++ rows.map (fun row =>
         { timestamp := row.timestamp, temperature := row.temperature,
           humidity := row.humidity, device_id := device_id }))

/-- `DatabaseInterface._sync_security`: the same cycle for security
events. -/
def _sync_security (localDb : List SecurityRow)
    (remote : List RemoteSecurityRow) (failAfter : Option Nat) :
    List SecurityRow × List RemoteSecurityRow :=
  let rows := fetchUnsyncedSecurity localDb
  if rows.isEmpty then (localDb, remote)
  else
    match failAfter with
    | some _ => (localDb, remote)
    | none =>
      let ids_to_mark := rows.map (fun row => row.id)
      (localDb.map (fun row =>
         if row.id ∈ ids_to_mark then { row with synced := true } else row),
       remote ++ rows.map (fun row =>
         { timestamp := row.timestamp, event_type := row.event_type,
           image_path := row.image_path, mode := row.mode, device_id := device_id }))

/-- Whether the local measurements table reports id `i` as synced. -/
def measurementSynced (db : List MeasurementRow) (i : Nat) : Bool :=
  db.any (fun row => row.id == i && row.synced)

/-- Whether the local security table reports id `i` as synced. -/
def securitySynced (db : List SecurityRow) (i : Nat) : Bool :=
  db.any (fun row => row.id == i && row.synced)

/-- Marking the batch ids turns an id's synced bit on exactly when it was
already on or the id is in the batch (measurements). -/
theorem mark_measurements_any (db : List MeasurementRow) (ids : List Nat) (i : Nat)
    (h : i ∈ ids → ∃ r ∈ db, r.id = i) :
    ((db.map (fun row =>
        if row.id ∈ ids then { row with synced := true } else row)).any
      (fun row => row.id == i && row.synced)) =
    ((db.any (fun row => row.id == i && row.synced)) || decide (i ∈ ids)) := by
  by_cases hi : i ∈ ids
  · obtain ⟨r, hr, hid⟩ := h hi
    have hmarked : ((fun row => row.id == i && row.synced)
        ((fun row => if row.id ∈ ids then { row with synced := true } else row) r)) = true := by
      subst hid
      simp [hi]
    simp only [decide_eq_true hi, Bool.or_true]
    exact List.any_eq_true.mpr ⟨_, List.mem_map_of_mem _ hr, hmarked⟩
  · clear h
    simp only [decide_eq_false hi, Bool.or_false]
    induction db with
    | nil => simp
    | cons r t ih =>
      simp only [List.map_cons, List.any_cons, ih]
      congr 1
      by_cases hrid : r.id ∈ ids
      · have hne : r.id ≠ i := fun e => hi (e ▸ hrid)
        simp [hrid, hne]
      · simp [hrid]

/-- Marking the batch ids turns an id's synced bit on exactly when it was
already on or the id is in the batch (security events). -/
theorem mark_security_any (db : List SecurityRow) (ids : List Nat) (i : Nat)
    (h : i ∈ ids → ∃ r ∈ db, r.id = i) :
    ((db.map (fun row =>
        if row.id ∈ ids then { row with synced := true } else row)).any
      (fun row => row.id == i && row.synced)) =
    ((db.any (fun row => row.id == i && row.synced)) || decide (i ∈ ids)) := by
  by_cases hi : i ∈ ids
  · obtain ⟨r, hr, hid⟩ := h hi
    have hmarked : ((fun row => row.id == i && row.synced)
        ((fun row => if row.id ∈ ids then { row with synced := true } else row) r)) = true := by
      subst hid
      simp [hi]
    simp only [decide_eq_true hi, Bool.or_true]
    exact List.any_eq_true.mpr ⟨_, List.mem_map_of_mem _ hr, hmarked⟩
  · clear h
    simp only [decide_eq_false hi, Bool.or_false]
    induction db with
    | nil => simp
    | cons r t ih =>
      simp only [List.map_cons, List.any_cons, ih]
      congr 1
      by_cases hrid : r.id ∈ ids
      · have hne : r.id ≠ i := fun e => hi (e ▸ hrid)
        simp [hrid, hne]
      · simp [hrid]

/-- Rows of the fetched measurement batch come from the table. -/
theorem fetchUnsyncedMeasurements_subset (db : List MeasurementRow) :
    ∀ r ∈ fetchUnsyncedMeasurements db, r ∈ db := by
  intro r hr
  exact List.mem_of_mem_filter (List.mem_of_mem_take hr)

/-- Rows of the fetched security batch come from the table. -/
theorem fetchUnsyncedSecurity_subset (db : List SecurityRow) :
    ∀ r ∈ fetchUnsyncedSecurity db, r ∈ db := by
  intro r hr
  exact List.mem_of_mem_filter (List.mem_of_mem_take hr)

/-- C1: for each record kind a sync attempt treats the batch atomically.
On success exactly the fetched ids become synced: an id reads back synced
iff it already was or is in the fetched batch.  On a remote failure after
any number of inserts, the local and remote tables are unchanged — zero
rows of the batch are marked — and the next cycle fetches exactly the same
oldest unsynced rows. -/
theorem C1_batch_atomicity (mdb : List MeasurementRow) (mrem : List RemoteMeasurementRow)
    (sdb : List SecurityRow) (srem : List RemoteSecurityRow) (k k' : Nat) :
    (∀ i, measurementSynced (_sync_measurements mdb mrem none).1 i =
      (measurementSynced mdb i ||
        decide (i ∈ (fetchUnsyncedMeasurements mdb).map (fun row => row.id)))) ∧
    ((_sync_measurements mdb mrem (some k)).1 = mdb ∧
     (_sync_measurements mdb mrem (some k)).2 = mrem ∧
     fetchUnsyncedMeasurements (_sync_measurements mdb mrem (some k)).1 =
       fetchUnsyncedMeasurements mdb) ∧
    (∀ i, securitySynced (_sync_security sdb srem none).1 i =
      (securitySynced sdb i ||
        decide (i ∈ (fetchUnsyncedSecurity sdb).map (fun row => row.id)))) ∧
    ((_sync_security sdb srem (some k')).1 = sdb ∧
     (_sync_security sdb srem (some k')).2 = srem ∧
     fetchUnsyncedSecurity (_sync_security sdb srem (some k')).1 =
       fetchUnsyncedSecurity sdb) := by
  refine ⟨?_, ?_, ?_, ?_⟩
  · intro i
    unfold _sync_measurements measurementSynced
    by_cases hemp : (fetchUnsyncedMeasurements mdb).isEmpty = true
    · rw [if_pos hemp]
      have he : fetchUnsyncedMeasurements mdb = [] := List.isEmpty_iff.mp hemp
      simp [he]
    · rw [if_neg hemp]
      refine mark_measurements_any mdb _ i ?_
      intro hm
      obtain ⟨r, hr, hid⟩ := List.mem_map.mp hm
      exact ⟨r, fetchUnsyncedMeasurements_subset mdb r hr, hid⟩
  · have h : _sync_measurements mdb mrem (some k) = (mdb, mrem) := by
      unfold _sync_measurements
      by_cases hemp : (fetchUnsyncedMeasurements mdb).isEmpty = true
      · rw [if_pos hemp]
      · rw [if_neg hemp]
    rw [h]
    exact ⟨rfl, rfl, rfl⟩
  · intro i
    unfold _sync_security securitySynced
    by_cases hemp : (fetchUnsyncedSecurity sdb).isEmpty = true
    · rw [if_pos hemp]
      have he : fetchUnsyncedSecurity sdb = [] := List.isEmpty_iff.mp hemp
      simp [he]
    · rw [if_neg hemp]
      refine mark_security_any sdb _ i ?_
      intro hm
      obtain ⟨r, hr, hid⟩ := List.mem_map.mp hm
      exact ⟨r, fetchUnsyncedSecurity_subset sdb r hr, hid⟩
  · have h : _sync_security sdb srem (some k') = (sdb, srem) := by
      unfold _sync_security
      by_cases hemp : (fetchUnsyncedSecurity sdb).isEmpty = true
      · rw [if_pos hemp]
      · rw [if_neg hemp]
    rw [h]
    exact ⟨rfl, rfl, rfl⟩

/-- The 120 unsynced measurement rows of the C2 scenario, ids 1..120 in
insertion order. -/
def db120 : List MeasurementRow :=
  (List.range 120).map (fun i =>
    { id := i + 1, timestamp := "2024-01-01T10:00:00", temperature := some 21,
      humidity := some 45, synced := false })

/-- One sync cycle's effect on the local measurements table with a reachable
remote store (every push succeeds). -/
def measurementCycle (db : List MeasurementRow) : List MeasurementRow :=
  (_sync_measurements db [] none).1

/-- Number of unsynced measurement rows. -/
def unsyncedMeasurementCount (db : List MeasurementRow) : Nat :=
  (db.filter (fun row => !row.synced)).length

/-- The ids a cycle newly marked synced (synced after, not before). -/
def newlySyncedIds (dbBefore dbAfter : List MeasurementRow) : List Nat :=
  (dbAfter.filter (fun row => row.synced && !measurementSynced dbBefore row.id)).map
    (fun row => row.id)

/-- The table after one, two and three cycles on `db120`. -/
def db120_c1 : List MeasurementRow := measurementCycle db120

/-- See `db120_c1`. -/
def db120_c2 : List MeasurementRow := measurementCycle db120_c1

/-- See `db120_c1`. -/
def db120_c3 : List MeasurementRow := measurementCycle db120_c2

/-- C2: the fetched batch holds at most 50 rows, all unsynced, and is
oldest-id-first: any unsynced row left out of the batch has a larger id
than every batched row.  Concretely, from 120 unsynced measurement rows a
reachable remote store needs exactly three cycles (120 → 70 → 20 → 0
unsynced), and each cycle marks synced exactly the ids it pushed (1–50,
then 51–100, then 101–120). -/
theorem C2_batch_fifty_three_cycles (db : List MeasurementRow)
    (hsort : List.Pairwise (fun a b => a.id < b.id) db) :
    (fetchUnsyncedMeasurements db).length ≤ 50 ∧
    (∀ r ∈ fetchUnsyncedMeasurements db, r.synced = false) ∧
    (∀ r ∈ db, r.synced = false → r ∉ fetchUnsyncedMeasurements db →
      ∀ q ∈ fetchUnsyncedMeasurements db, q.id < r.id) ∧
    (unsyncedMeasurementCount db120 = 120 ∧
     unsyncedMeasurementCount db120_c1 = 70 ∧
     unsyncedMeasurementCount db120_c2 = 20 ∧
     unsyncedMeasurementCount db120_c3 = 0) ∧
    (newlySyncedIds db120 db120_c1 = (fetchUnsyncedMeasurements db120).map (fun row => row.id) ∧
     newlySyncedIds db120_c1 db120_c2 = (fetchUnsyncedMeasurements db120_c1).map (fun row => row.id) ∧
     newlySyncedIds db120_c2 db120_c3 = (fetchUnsyncedMeasurements db120_c2).map (fun row => row.id)) ∧
    (newlySyncedIds db120 db120_c1 = List.range' 1 50 ∧
     newlySyncedIds db120_c1 db120_c2 = List.range' 51 50 ∧
     newlySyncedIds db120_c2 db120_c3 = List.range' 101 20) := by
  refine ⟨?_, ?_, ?_, by decide, by decide, by decide⟩
  · exact List.length_take_le 50 _
  · intro r hr
    have hf : r ∈ db.filter (fun row => !row.synced) := List.mem_of_mem_take hr
    simpa using List.of_mem_filter hf
  · intro r hr hrs hnot q hq
    have hrl : r ∈ db.filter (fun row => !row.synced) :=
      List.mem_filter.mpr ⟨hr, by simp [hrs]⟩
    have hpl : List.Pairwise (fun a b => a.id < b.id) (db.filter (fun row => !row.synced)) :=
      hsort.filter _
    have hsplit : db.filter (fun row => !row.synced) =
        (db.filter (fun row => !row.synced)).take 50 ++
          (db.filter (fun row => !row.synced)).drop 50 :=
      (List.take_append_drop 50 _).symm
    have hrd : r ∈ (db.filter (fun row => !row.synced)).drop 50 := by
      rcases List.mem_append.mp (hsplit ▸ hrl) with h | h
      · exact absurd h hnot
      · exact h
    exact (List.pairwise_append.mp (hsplit ▸ hpl)).2.2 q hq r hrd

/-- C2 (witness): the sortedness hypothesis holds of the concrete scenario
table. -/
theorem C2_batch_fifty_three_cycles_witness :
    (fetchUnsyncedMeasurements db120).length ≤ 50 ∧
    unsyncedMeasurementCount db120_c3 = 0 :=
  ⟨(C2_batch_fifty_three_cycles db120 (by decide)).1,
   (C2_batch_fifty_three_cycles db120 (by decide)).2.2.2.1.2.2.2⟩

/-! ## `DatabaseInterface._sync_loop` and `close`

The loop `while self.running:` first checks the requirements
(`pg_conn_str` configured and the driver importable; otherwise it sleeps 60
seconds and retries), then runs one cycle — `_sync_measurements()` followed
by `_sync_security()` — inside `try ... except Exception`, so an exception
of any `Exception` subclass raised by the cycle is caught and logged, and
the loop sleeps 10 seconds and continues.  (`BaseException`s such as
`KeyboardInterrupt` are outside the handler and outside claim C10's
scope.)  `close()` clears `running` and joins the thread. -/

/-- What one cycle of the loop body did: completed, or raised some
`Exception` subclass (modelled by any `PyErr`). -/
inductive CycleOutcome where
  | ok
  | raises (e : PyErr)
deriving DecidableEq, Repr

/-- How one loop iteration ends: the thread leaves the loop, or sleeps the
given number of seconds and re-checks the running flag. -/
inductive StepResult where
  | exited
  | sleptThenContinue (seconds : Nat)
deriving DecidableEq, Repr

/-- One iteration of `DatabaseInterface._sync_loop`: check the running flag,
back off 60 s when the remote is not configured, otherwise run the cycle
under `try/except Exception` and sleep 10 s. -/
def _sync_loop_step (running configured : Bool) (o : CycleOutcome) : StepResult :=
  if !running then StepResult.exited
  else if !configured then StepResult.sleptThenContinue 60
  else
    match o with
    | CycleOutcome.ok => StepResult.sleptThenContinue 10
    | CycleOutcome.raises _ => StepResult.sleptThenContinue 10

/-- The loop run over a finite schedule of (running flag at the check,
configured flag, cycle outcome) triples, stopping when an iteration
exits. -/
def _sync_loop_trace : List (Bool × Bool × CycleOutcome) → List StepResult
  | [] => []
  | (r, c, o) :: rest =>
    let s := _sync_loop_step r c o
    s :: (if s = StepResult.exited then [] else _sync_loop_trace rest)

/-- C10: an iteration exits the sync loop iff the running flag was cleared;
in particular any `Exception` raised inside a cycle — remote-driver or
not — is caught, and the iteration sleeps its 10 s (60 s when
unconfigured, where no cycle runs) and continues; over any schedule whose
running flag stays set, the loop never exits, whatever the cycle
outcomes. -/
theorem C10_sync_loop_survives_cycle_errors (r c : Bool) (o : CycleOutcome)
    (sched : List (Bool × Bool × CycleOutcome)) (hall : ∀ x ∈ sched, x.1 = true) :
    (_sync_loop_step r c o = StepResult.exited ↔ r = false) ∧
    (∀ e, _sync_loop_step true c (CycleOutcome.raises e) =
      StepResult.sleptThenContinue (if c then 10 else 60)) ∧
    StepResult.exited ∉ _sync_loop_trace sched ∧
    (_sync_loop_trace sched).length = sched.length := by
  refine ⟨?_, ?_, ?_, ?_⟩
  · cases r <;> cases c <;> cases o <;> simp [_sync_loop_step]
  · intro e
    cases c <;> simp [_sync_loop_step]
  · induction sched with
    | nil => simp [_sync_loop_trace]
    | cons x rest ih =>
      obtain ⟨xr, xc, xo⟩ := x
      have hx : xr = true := hall (xr, xc, xo) (List.mem_cons_self _ _)
      have hrest : ∀ y ∈ rest, y.1 = true := fun y hy => hall y (List.mem_cons_of_mem _ hy)
      have hstep : _sync_loop_step xr xc xo ≠ StepResult.exited := by
        subst hx
        cases xc <;> cases xo <;> simp [_sync_loop_step]
      simp only [_sync_loop_trace, if_neg hstep, List.mem_cons]
      push_neg
      exact ⟨fun h => hstep h.symm, ih hrest⟩
  · induction sched with
    | nil => rfl
    | cons x rest ih =>
      obtain ⟨xr, xc, xo⟩ := x
      have hx : xr = true := hall (xr, xc, xo) (List.mem_cons_self _ _)
      have hrest : ∀ y ∈ rest, y.1 = true := fun y hy => hall y (List.mem_cons_of_mem _ hy)
      have hstep : _sync_loop_step xr xc xo ≠ StepResult.exited := by
        subst hx
        cases xc <;> cases xo <;> simp [_sync_loop_step]
      simp [_sync_loop_trace, hstep, ih hrest]

/-- C10 (witness): a schedule with a non-driver exception mid-way does not
end the loop. -/
theorem C10_sync_loop_witness :
    StepResult.exited ∉ _sync_loop_trace
      [(true, true, CycleOutcome.ok),
       (true, true, CycleOutcome.raises (PyErr.generic "sqlite3.OperationalError")),
       (true, true, CycleOutcome.ok)] :=
  (C10_sync_loop_survives_cycle_errors true true CycleOutcome.ok
    [(true, true, CycleOutcome.ok),
     (true, true, CycleOutcome.raises (PyErr.generic "sqlite3.OperationalError")),
     (true, true, CycleOutcome.ok)] (by decide)).2.2.1

/-! ## Daily log rotation (`src/jeefHS.py`, `_ensure_log_file` /
`_write_log_entry`)

`_ensure_log_file` parses the entry's own ISO timestamp with
`datetime.fromisoformat(timestamp_iso.replace('Z', '+00:00'))` (falling back
to `datetime.now()` on `ValueError`) and keys the active file by
`strftime('%Y%m%d')` of that moment — for an ISO timestamp this is its
first ten characters with the dashes removed.  When the key differs from
`_log_date` (or no handle is open) the old handle, if any, is flushed,
fsynced and closed before the new day's file is opened for append.  The
wall clock enters only through the `ValueError` fallback, modelled by the
`now_key` parameter.  `_write_log_entry` (under `_log_lock`) builds the JSON
record — abstracted here to the opaque `line` — and appends it to the open
handle. -/

/-- Recognises the date-shaped prefix `YYYY-MM-DD` that
`datetime.fromisoformat` requires of the timestamps this program produces. -/
def isIsoDate (s : String) : Bool :=
  decide (s.data.length ≥ 10) &&
  (List.range 10).all (fun i =>
    if i = 4 || i = 7 then s.data.getD i ' ' = '-' else (s.data.getD i ' ').isDigit)

/-- `strftime('%Y%m%d')` of the parsed timestamp: the first ten characters
without the dashes; `now_key` is the wall-clock key used by the
`ValueError` fallback. -/
def pyDateKey (now_key : String) (s : String) : String :=
  if isIsoDate s then String.mk ((s.data.take 10).filter (fun c => c ≠ '-'))
  else now_key

/-- Observable file-system events of the logging layer, in program order. -/
inductive LogEvent where
  | flush (path : String)
  | fsync (path : String)
  | closeFile (path : String)
  | openFile (path : String)
  | writeLine (path : String) (line : String)
deriving DecidableEq, Repr

/-- Logging state of `JeefHSApp`: `_log_date`, `_log_handle` (identified by
the path it writes to), `_needs_flush`, and the contents of the daily
files on disk. -/
structure LogSys where
  log_date : Option String
  log_handle : Option String
  needs_flush : Bool
  files : String → List String

/-- `JeefHSApp._ensure_log_file`. -/
def _ensure_log_file (now_key : String) (s : LogSys) (timestamp_iso : String) :
    LogSys × List LogEvent :=
  let date_str := pyDateKey now_key timestamp_iso
  if s.log_date = some date_str ∧ s.log_handle.isSome then (s, [])
  else
    let closeEvents := match s.log_handle with
      | some p => [LogEvent.flush p, LogEvent.fsync p, LogEvent.closeFile p]
      | none => []
    let needs := match s.log_handle with
      | some _ => false
      | none => s.needs_flush
    let path := date_str ++ "_jeefhs_log.jsonl"
    ({ log_date := some date_str, log_handle := some path, needs_flush := needs,
       files := s.files },
     closeEvents ++ [LogEvent.openFile path])

/-- `JeefHSApp._write_log_entry`, with the serialised JSON record abstracted
to `line` and `timestamp` the entry's own timestamp (the source takes it
from the sampled data, falling back to `datetime.now().isoformat()` only
when no sample carries one).  The `none` branch of the match is unreachable:
`_ensure_log_file` always leaves a handle open. -/
def _write_log_entry (now_key : String) (s : LogSys) (timestamp line : String) :
    LogSys × List LogEvent :=
  let es := _ensure_log_file now_key s timestamp
  match es.1.log_handle with
  | some p =>
    ({ es.1 with
        files := fun q => if q = p then es.1.files q ++ [line] else es.1.files q,
        needs_flush := true },
     es.2 ++ [LogEvent.writeLine p line])
  | none => (es.1, es.2)

/-- The logging state at application start. -/
def logSys0 : LogSys :=
  { log_date := none, log_handle := none, needs_flush := false, files := fun _ => [] }

/-- State and events after writing the first C8 record (an arbitrary wall
clock key shows the wall clock is not consulted). -/
def logAfterFirst : LogSys × List LogEvent :=
  _write_log_entry "20240315" logSys0 "2024-01-01T23:59:59" "entry-one"

/-- State and events after writing the second C8 record. -/
def logAfterSecond : LogSys × List LogEvent :=
  _write_log_entry "20240316" logAfterFirst.1 "2024-01-02T00:00:01" "entry-two"

/-- C8: a log entry lands in the daily file named for the calendar date of
its own timestamp.  For a parseable timestamp the wall clock (`now_key`)
plays no part in the write; on a date switch the events are exactly flush,
fsync and close of the old handle before the new day's file is opened and
written.  Concretely, records timestamped `2024-01-01T23:59:59` and
`2024-01-02T00:00:01` land in the two distinct files
`20240101_jeefhs_log.jsonl` and `20240102_jeefhs_log.jsonl`. -/
theorem C8_log_rotation (nk nk' : String) (s : LogSys) (ts line : String)
    (hts : isIsoDate ts = true) :
    (_write_log_entry nk s ts line = _write_log_entry nk' s ts line) ∧
    (∀ p d, s.log_handle = some p → s.log_date = some d → d ≠ pyDateKey nk ts →
      (_write_log_entry nk s ts line).2 =
        [LogEvent.flush p, LogEvent.fsync p, LogEvent.closeFile p,
         LogEvent.openFile (pyDateKey nk ts ++ "_jeefhs_log.jsonl"),
         LogEvent.writeLine (pyDateKey nk ts ++ "_jeefhs_log.jsonl") line]) ∧
    (logAfterSecond.1.files "20240101_jeefhs_log.jsonl" = ["entry-one"] ∧
     logAfterSecond.1.files "20240102_jeefhs_log.jsonl" = ["entry-two"] ∧
     ("20240101_jeefhs_log.jsonl" : String) ≠ "20240102_jeefhs_log.jsonl" ∧
     logAfterSecond.2 =
       [LogEvent.flush "20240101_jeefhs_log.jsonl",
        LogEvent.fsync "20240101_jeefhs_log.jsonl",
        LogEvent.closeFile "20240101_jeefhs_log.jsonl",
        LogEvent.openFile "20240102_jeefhs_log.jsonl",
        LogEvent.writeLine "20240102_jeefhs_log.jsonl" "entry-two"]) := by
  have hk : pyDateKey nk ts = pyDateKey nk' ts := by
    unfold pyDateKey
    rw [hts]
    simp
  refine ⟨?_, ?_, by decide, by decide, by decide, by decide⟩
  · unfold _write_log_entry _ensure_log_file
    rw [hk]
  · intro p d hp hd hne
    have hcond : ¬ (s.log_date = some (pyDateKey nk ts) ∧ s.log_handle.isSome) := by
      rintro ⟨h1, _⟩
      rw [hd] at h1
      exact hne (Option.some.inj h1)
    simp only [_write_log_entry, _ensure_log_file, hp, hd]
    rw [if_neg (by simpa [hd, hp] using hcond)]
    simp

/-- C8 (witness): the second concrete record's write closes the first day's
file before opening the second day's file. -/
theorem C8_log_rotation_witness :
    logAfterSecond.1.files "20240101_jeefhs_log.jsonl" = ["entry-one"] ∧
    (_write_log_entry "20240316" logAfterFirst.1 "2024-01-02T00:00:01" "entry-two").2 =
      [LogEvent.flush "20240101_jeefhs_log.jsonl",
       LogEvent.fsync "20240101_jeefhs_log.jsonl",
       LogEvent.closeFile "20240101_jeefhs_log.jsonl",
       LogEvent.openFile ("20240102" ++ "_jeefhs_log.jsonl"),
       LogEvent.writeLine ("20240102" ++ "_jeefhs_log.jsonl") "entry-two"] :=
  ⟨(C8_log_rotation "20240316" "wall-clock-unused" logAfterFirst.1 "2024-01-02T00:00:01"
      "entry-two" (by decide)).2.2.1,
   (C8_log_rotation "20240316" "wall-clock-unused" logAfterFirst.1 "2024-01-02T00:00:01"
      "entry-two" (by decide)).2.1
     "20240101_jeefhs_log.jsonl" "20240101" rfl rfl (by decide)⟩
